import Mathlib

/-!
Shallow embedding of the LinkedIn post publisher application
(`streamlit_app.py`): the generate-post handler, the LinkedIn API helper
functions (`get_user_urn`, `upload_media_to_linkedin`,
`create_linkedin_post_with_media`), the publish-post handler and the
clear handler.  HTTP calls are modelled by passing in the stubbed
responses the external endpoints would return; each handler returns the
trace of user-visible messages, the request bodies it built and the
result values it produced.
-/

namespace LinkedinApp

/-- Python truthiness of an optional string: `None` and the empty string are
falsy, every other string is truthy. -/
def pyTruthy : Option String → Bool
  | none => false
  | some s => s ≠ ""

/-- An HTTP response from an external endpoint, abstracted to its status
code; the decoded JSON fields a caller reads are passed separately. -/
structure HttpResponse where
  status_code : Nat
deriving Repr, DecidableEq

/-- Whether `requests.Response.raise_for_status()` does not raise: it raises
exactly for client and server error codes, i.e. statuses of at least 400
(we model the status range 100-599 that HTTP delivers). -/
def httpOk (r : HttpResponse) : Bool := r.status_code < 400

/-- The Streamlit session-state keys used by the app. -/
structure SessionState where
  generated_post : Option String
  editable_post : Option String
deriving Repr, DecidableEq

/-- An uploaded file as Streamlit presents it: name, declared MIME type and
raw contents (bytes). -/
structure UploadedFile where
  name : String
  type : String
  content : List Nat
deriving Repr, DecidableEq

/-- Embedding of `get_user_urn` (streamlit_app.py lines 181-200).  Inputs:
the stubbed response of the userinfo endpoint, its decoded `name` and `sub`
fields, and the text of the exception `requests` would raise on a non-ok
status.  Output: the list of `st.error` messages displayed, then the
returned `(user_id, user_name)` pair.  On a non-ok status the generic
fetch-error message is always shown, and the token-expired message is
added for status 401; the function returns `(None, None)`. -/
def get_user_urn (resp : HttpResponse) (name sub : Option String) (raw_err : String) :
    List String × Option String × Option String :=
  if httpOk resp then
    ([], sub, some (name.getD "N/A"))
  else
    (["Error fetching user info: " ++ raw_err] ++
       (if resp.status_code = 401 then
         ["❌ LinkedIn token expired or invalid. Please update your token."]
        else []),
     none, none)

/-- Python `s.startswith(pre)`: the characters of `pre` are a prefix of
the characters of `s`. -/
def pyStartsWith (s pre : String) : Bool := pre.data.isPrefixOf s.data

/-- Embedding of the media-category classification in
`upload_media_to_linkedin` (lines 206-209): `IMAGE` when the declared MIME
type starts with `image`, otherwise `VIDEO`. -/
def media_category (file_type : String) : String :=
  if pyStartsWith file_type "image" then "IMAGE" else "VIDEO"

/-- The registration request body fields built by `upload_media_to_linkedin`
(lines 217-228) that depend on its inputs. -/
structure RegisterData where
  recipe : String
  owner : String
deriving Repr, DecidableEq

/-- The register-upload request body (lines 217-228). -/
def register_data (author_urn file_type : String) : RegisterData :=
  { recipe := "urn:li:digitalmediaRecipe:feedshare-" ++ (media_category file_type).toLower
    owner := "urn:li:person:" ++ author_urn }

/-- Stubbed responses of the two HTTP calls made by
`upload_media_to_linkedin`: the register-upload call (with the upload URL
and asset id of its decoded body, and its exception text) and the binary
upload call. -/
structure UploadEnv where
  register_resp : HttpResponse
  register_raw_err : String
  register_upload_url : String
  register_asset : String
  upload_resp : HttpResponse
  upload_raw_err : String
deriving Repr, DecidableEq

/-- Embedding of `upload_media_to_linkedin` (lines 202-248).  Output: the
register request body it sends, the list of `st.error` messages displayed,
and the returned asset id (`None` when either call fails, since the
top-level `except` catches the exception, reports it and returns `None`). -/
def upload_media_to_linkedin (env : UploadEnv) (author_urn file_type : String) :
    RegisterData × List String × Option String :=
  if httpOk env.register_resp then
    if httpOk env.upload_resp then
      (register_data author_urn file_type, [], some env.register_asset)
    else
      (register_data author_urn file_type,
       ["Error uploading media: " ++ env.upload_raw_err], none)
  else
    (register_data author_urn file_type,
     ["Error uploading media: " ++ env.register_raw_err], none)

/-- One entry of the `media` array of the post body (lines 279-290). -/
structure MediaBlock where
  status : String
  description_text : String
  media : String
  title_text : String
deriving Repr, DecidableEq

/-- The post-creation request body built by
`create_linkedin_post_with_media` (lines 259-291).  `shareMediaCategory`
is an optional string because the Python code can set it to `None`
(serialised as JSON `null`); `media := none` means the `media` key is
absent from the body. -/
structure PostData where
  author : String
  lifecycleState : String
  share_commentary_text : String
  shareMediaCategory : Option String
  media : Option MediaBlock
  visibility : String
deriving Repr, DecidableEq

/-- The body construction of `create_linkedin_post_with_media`
(lines 259-291).  `media_urn` and `media_type` are optional strings exactly
as in the Python call sites (`media_urn=None`, `linkedin_media_type` may be
`None`).  The category is `"NONE"` when `media_urn` is falsy, else the
given `media_type`; when `media_urn` is truthy a media block is attached
whose title is `Project Video` exactly when `media_type == "VIDEO"`. -/
def create_post_data (author_urn text : String) (media_urn media_type : Option String) :
    PostData :=
  let base : PostData :=
    { author := "urn:li:person:" ++ author_urn
      lifecycleState := "PUBLISHED"
      share_commentary_text := text
      shareMediaCategory := if pyTruthy media_urn then media_type else some "NONE"
      media := none
      visibility := "PUBLIC" }
  if pyTruthy media_urn then
    { base with
      media := some
        { status := "READY"
          description_text := "Project showcase"
          media := media_urn.getD ""
          title_text := if media_type = some "VIDEO" then "Project Video" else "Project Image" }
      shareMediaCategory := media_type }
  else base

/-- Embedding of `create_linkedin_post_with_media` (lines 250-303).
Inputs include the stubbed response of the post-creation endpoint, its
decoded JSON body (as an opaque string) and the text of the exception
`requests` would raise.  Output: the request body sent and the returned
`(success, result)` pair: ok status gives `(True, response.json())`;
otherwise the message is special-cased for 401 and 403 and is the raw
exception text for every other error status. -/
def create_linkedin_post_with_media (author_urn text : String)
    (media_urn media_type : Option String) (resp : HttpResponse)
    (resp_json raw_err : String) : PostData × Bool × String :=
  let post_data := create_post_data author_urn text media_urn media_type
  if httpOk resp then
    (post_data, true, resp_json)
  else
    (post_data, false,
      if resp.status_code = 401 then "LinkedIn token expired or invalid"
      else if resp.status_code = 403 then "Insufficient permissions. Check your LinkedIn app scopes"
      else raw_err)

/-- The `linkedin_media_type` computation of the publish handler
(lines 337-342): only truthy `media_urn` together with an `image`/`video`
MIME prefix yields a category; any other MIME type leaves it `None`. -/
def linkedin_media_type (uploaded_file : Option UploadedFile) (media_urn : Option String) :
    Option String :=
  match uploaded_file with
  | none => none
  | some f =>
    if pyTruthy media_urn then
      if pyStartsWith f.type "image" then some "IMAGE"
      else if pyStartsWith f.type "video" then some "VIDEO"
      else none
    else none

/-- Stubbed responses for one run of the publish handler: the userinfo
call (with the `name` and `sub` fields of its decoded body), the two
media-upload calls and the post-creation call. -/
structure PublishEnv where
  identity_resp : HttpResponse
  identity_raw_err : String
  identity_name : Option String
  identity_sub : Option String
  upload_env : UploadEnv
  post_resp : HttpResponse
  post_resp_json : String
  post_raw_err : String
deriving Repr, DecidableEq

/-- Everything one run of the publish handler does that is observable:
the displayed messages of each Streamlit level, whether the userinfo call
and the media-upload calls were made, the body of the post-creation call
if it was made, and the `(success, result)` value returned by
`create_linkedin_post_with_media` if it was called. -/
structure PublishTrace where
  errors : List String
  warnings : List String
  infos : List String
  successes : List String
  identity_called : Bool
  upload_attempted : Bool
  post_call : Option PostData
  result : Option (Bool × String)
deriving Repr, DecidableEq

/-- The media-upload portion of the publish handler (lines 322-334):
nothing happens without an uploaded file; otherwise the helper is called
and its truthy result is announced with a success message, a falsy result
with a warning, while the returned value is kept either way. -/
structure MediaStep where
  infos : List String
  errors : List String
  successes : List String
  warnings : List String
  attempted : Bool
  media_urn : Option String
deriving Repr, DecidableEq

/-- Embedding of lines 322-334 of the publish handler. -/
def media_upload_step (uploaded_file : Option UploadedFile) (env : UploadEnv)
    (author : String) : MediaStep :=
  match uploaded_file with
  | none =>
    { infos := [], errors := [], successes := [], warnings := []
      attempted := false, media_urn := none }
  | some f =>
    let u := upload_media_to_linkedin env author f.type
    if pyTruthy u.2.2 then
      { infos := ["⬆️ Uploading media..."], errors := u.2.1
        successes := ["✅ Media uploaded successfully!"], warnings := []
        attempted := true, media_urn := u.2.2 }
    else
      { infos := ["⬆️ Uploading media..."], errors := u.2.1
        successes := []
        warnings := ["⚠️ Media upload failed, posting without media..."]
        attempted := true, media_urn := u.2.2 }

/-- Embedding of the Publish Post handler (lines 311-359).  With no
generated draft in session state the handler stops at the
generate-a-post-first error and makes no external call.  Otherwise it
resolves the identity; a falsy `user_id` (any failed or `sub`-less
response) ends the run with only the messages `get_user_urn` displayed;
a truthy `user_id` runs the optional media step and always calls
`create_linkedin_post_with_media`, reporting its outcome. -/
def publish_handler (session : SessionState) (uploaded_file : Option UploadedFile)
    (env : PublishEnv) : PublishTrace :=
  match session.generated_post with
  | none =>
    { errors := ["❌ Please generate a post first!"], warnings := [], infos := []
      successes := [], identity_called := false, upload_attempted := false
      post_call := none, result := none }
  | some _ =>
    let idr := get_user_urn env.identity_resp env.identity_name env.identity_sub
      env.identity_raw_err
    let user_id := idr.2.1
    let user_name := idr.2.2
    if pyTruthy user_id then
      let author := user_id.getD ""
      let ms := media_upload_step uploaded_file env.upload_env author
      let lmt := linkedin_media_type uploaded_file ms.media_urn
      let text := session.editable_post.getD ""
      let out := create_linkedin_post_with_media author text ms.media_urn lmt
        env.post_resp env.post_resp_json env.post_raw_err
      { errors := idr.1 ++ ms.errors ++
          (if out.2.1 then [] else ["❌ Failed to publish post: " ++ out.2.2])
        warnings := ms.warnings
        infos := ["👤 Posting as: " ++ user_name.getD "None"] ++ ms.infos
        successes := ms.successes ++
          (if out.2.1 then ["🎉 Post published successfully to LinkedIn!"] else [])
        identity_called := true
        upload_attempted := ms.attempted
        post_call := some out.1
        result := some out.2 }
    else
      { errors := idr.1, warnings := [], infos := [], successes := []
        identity_called := true, upload_attempted := false
        post_call := none, result := none }

/-- Embedding of the Clear and Start Over handler (lines 362-368): it
deletes the `generated_post` and `editable_post` keys from session
state. -/
def clear_handler (_s : SessionState) : SessionState :=
  { generated_post := none, editable_post := none }

/-- The form inputs read by the Generate LinkedIn Post handler. -/
structure GenerateInputs where
  day_number : Nat
  project_title : String
  tech1 : String
  tech2 : String
  tech3 : String
  tech4 : String
  custom_milestone : String
  custom_skills : String
  custom_next_phase : String
deriving Repr, DecidableEq

/-- Whether a character is whitespace for Python's `str.strip()` and
`str.isspace()`: ASCII whitespace, the C1 separators, and the Unicode
space characters. -/
def pyIsSpace (c : Char) : Bool :=
  let n := c.toNat
  (9 ≤ n && n ≤ 13) || (28 ≤ n && n ≤ 31) || n = 32 || n = 0x85 || n = 0xa0 ||
  n = 0x1680 || (0x2000 ≤ n && n ≤ 0x200a) || n = 0x2028 || n = 0x2029 ||
  n = 0x202f || n = 0x205f || n = 0x3000

/-- Python truthiness of `s.strip()`: true exactly when `s` has at least
one non-whitespace character. -/
def stripNonempty (s : String) : Bool := s.data.any (fun c => !pyIsSpace c)

/-- The `technologies` list of line 116: the four technology inputs
filtered to those whose `strip()` is non-empty. -/
def technologies (i : GenerateInputs) : List String :=
  [i.tech1, i.tech2, i.tech3, i.tech4].filter stripNonempty

/-- Python `sep.join(l)`: the elements of `l` interleaved with `sep`. -/
def pyJoin (sep : String) : List String → String
  | [] => ""
  | [s] => s
  | s :: t :: rest => s ++ sep ++ pyJoin sep (t :: rest)

/-- The `tech_string` of line 117. -/
def tech_string (i : GenerateInputs) : String := pyJoin " • " (technologies i)

/-- Prompt template, from its start to the first `day_number` hole. -/
def promptPart1 : String :=
  "\nGenerate a professional LinkedIn post for a  student at NIAT following this exact format and also don\x27t use \"**\" in the post:\n\nDay "

/-- Prompt template between the first `day_number` hole and the first
`project_title` hole. -/
def promptPart2 : String :=
  " |  at NIAT\n🎯 Milestone Achieved: [Generate an appropriate milestone based on the project]\n🔧 Project Delivered: "

/-- Prompt template between the first `project_title` hole and the first
`tech_string` hole. -/
def promptPart3 : String :=
  "\n [Generate 3 key features/components of this project]\n [Feature 2]  \n [Feature 3]\n⚡ Tech Stack: "

/-- Prompt template between the first `tech_string` hole and the second
`day_number` hole. -/
def promptPart4 : String :=
  "\n📊 Skills Gained: [Generate 4 relevant skills based on the technologies and project]\n🚀 Next Phase: [Generate next logical step in development journey]\n\nBuilding industry-ready developers through hands-on project experience.\n\n#NIAT #ReactJS #FrontendDevelopment #WebDev #TechEducation #StudentSuccess\n\nProject Details:\n- Day: "

/-- Prompt template between the second `day_number` hole and the second
`project_title` hole. -/
def promptPart5 : String := "\n- Project: "

/-- Prompt template between the second `project_title` hole and the second
`tech_string` hole. -/
def promptPart6 : String := "\n- Technologies: "

/-- Prompt template after the last conditional custom line. -/
def promptPart8 : String :=
  "\n\nMake it engaging, professional, and inspiring. Focus on growth, learning, and practical experience.\n"

/-- The f-string `prompt` of lines 120-146, with the three conditional
custom lines present exactly when the corresponding input is truthy. -/
def prompt (i : GenerateInputs) : String :=
  promptPart1 ++ toString i.day_number ++ promptPart2 ++ i.project_title ++
  promptPart3 ++ tech_string i ++ promptPart4 ++ toString i.day_number ++
  promptPart5 ++ i.project_title ++ promptPart6 ++ tech_string i ++ "\n" ++
  (if i.custom_milestone = "" then "" else "- Custom Milestone: " ++ i.custom_milestone) ++
  "\n" ++
  (if i.custom_skills = "" then "" else "- Additional Skills: " ++ i.custom_skills) ++
  "\n" ++
  (if i.custom_next_phase = "" then "" else "- Next Phase: " ++ i.custom_next_phase) ++
  promptPart8

/-- What the Generate LinkedIn Post handler (lines 109-160) does before
any external call: either it rejects the inputs with the fill-in error,
or it builds the prompt and invokes the Gemini model with it. -/
inductive GenerateAction where
  | rejected (msg : String)
  | callGemini (prompt : String)
deriving Repr, DecidableEq

/-- Embedding of the validation and prompt construction of the Generate
LinkedIn Post handler (lines 109-151): an empty project title or an empty
first technology is rejected before the model call. -/
def generate_handler (i : GenerateInputs) : GenerateAction :=
  if i.project_title = "" ∨ i.tech1 = "" then
    .rejected "❌ Please fill in at least the project title and first technology!"
  else
    .callGemini (prompt i)

/-- Substring containment: the characters of `t` occur contiguously in
`s`. -/
abbrev strContains (s t : String) : Prop := t.data <:+: s.data

/-- Helper: an infix stays an infix after appending on the right. -/
theorem infix_app_left {m l₁ : List Char} (l₂ : List Char) (h : m <:+: l₁) :
    m <:+: l₁ ++ l₂ :=
  h.trans ⟨[], l₂, by simp⟩

/-- Helper: an infix stays an infix after appending on the left. -/
theorem infix_app_right {m l₂ : List Char} (l₁ : List Char) (h : m <:+: l₂) :
    m <:+: l₁ ++ l₂ :=
  h.trans ⟨l₁, [], by simp⟩

/-- Helper: every element of a list is a substring of its Python join. -/
theorem infix_pyJoin (sep : String) : ∀ {l : List String} {t : String}, t ∈ l →
    t.data <:+: (pyJoin sep l).data
  | [], t, h => absurd h (List.not_mem_nil t)
  | [_], t, h => by
    rcases List.mem_singleton.1 h with rfl
    exact List.infix_rfl
  | s :: r :: rest, t, h => by
    rcases List.mem_cons.1 h with rfl | h2
    · show t.data <:+: (t ++ sep ++ pyJoin sep (r :: rest)).data
      rw [String.data_append, String.data_append]
      exact infix_app_left _ (infix_app_left _ List.infix_rfl)
    · show t.data <:+: (s ++ sep ++ pyJoin sep (r :: rest)).data
      rw [String.data_append]
      exact infix_app_right _ (infix_pyJoin sep h2)

/-- C5: for every draft whose project title is empty or whose first
technology is empty, the generate handler rejects the inputs with the
fill-in error and never reaches the Gemini call. -/
theorem empty_title_or_tech_rejected (i : GenerateInputs)
    (h : i.project_title = "" ∨ i.tech1 = "") :
    generate_handler i =
      .rejected "❌ Please fill in at least the project title and first technology!" := by
  simp only [generate_handler, if_pos h]

/-- A draft with an empty project title, used to instantiate the
validation theorem. -/
def c5Input : GenerateInputs :=
  { day_number := 3, project_title := "", tech1 := "React", tech2 := ""
    tech3 := "", tech4 := "", custom_milestone := "", custom_skills := ""
    custom_next_phase := "" }

/-- Witness for the C5 theorem at a concrete rejected draft. -/
theorem empty_title_or_tech_rejected_witness :
    generate_handler c5Input =
      .rejected "❌ Please fill in at least the project title and first technology!" :=
  empty_title_or_tech_rejected c5Input (Or.inl rfl)

/-- C6 (amended): for every valid input, the prompt contains the day
number and the project title as literal substrings, and contains every
technology input that has a non-whitespace character (the code drops
whitespace-only technologies from the list it joins). -/
theorem prompt_contains_day_title_techs (i : GenerateInputs)
    (_htitle : i.project_title ≠ "") (_htech : i.tech1 ≠ "") :
    strContains (prompt i) (toString i.day_number) ∧
    strContains (prompt i) i.project_title ∧
    ∀ t ∈ [i.tech1, i.tech2, i.tech3, i.tech4], stripNonempty t = true →
      strContains (prompt i) t := by
  refine ⟨?_, ?_, ?_⟩
  · show (toString i.day_number).data <:+: (prompt i).data
    simp only [prompt, String.data_append, List.append_assoc]
    exact infix_app_right _ (infix_app_left _ List.infix_rfl)
  · show i.project_title.data <:+: (prompt i).data
    simp only [prompt, String.data_append, List.append_assoc]
    exact infix_app_right _ (infix_app_right _ (infix_app_right _
      (infix_app_left _ List.infix_rfl)))
  · intro t ht hs
    have hmem : t ∈ technologies i := List.mem_filter.2 ⟨ht, hs⟩
    have hts : t.data <:+: (tech_string i).data := infix_pyJoin " • " hmem
    show t.data <:+: (prompt i).data
    simp only [prompt, String.data_append, List.append_assoc]
    exact infix_app_right _ (infix_app_right _ (infix_app_right _
      (infix_app_right _ (infix_app_right _ (infix_app_left _ hts)))))

/-- A valid draft whose second technology is a single non-breaking space:
non-empty, yet filtered out of the prompt. -/
def c6Input : GenerateInputs :=
  { day_number := 5, project_title := "Todo App", tech1 := "React"
    tech2 := "\u00A0", tech3 := "", tech4 := "", custom_milestone := ""
    custom_skills := "", custom_next_phase := "" }

set_option maxRecDepth 8000 in
/-- Counterexample to C6 as stated: a valid draft whose second technology
is the non-empty string made of one non-breaking space, which Python's
strip-filter removes, so the built prompt does not contain it. -/
theorem whitespace_tech_not_in_prompt :
    c6Input.project_title ≠ "" ∧ c6Input.tech1 ≠ "" ∧ c6Input.tech2 ≠ "" ∧
    ¬ strContains (prompt c6Input) c6Input.tech2 := by
  refine ⟨by decide, by decide, by decide, ?_⟩
  intro h
  have hmem : '\u00A0' ∈ (prompt c6Input).data :=
    h.sublist.subset (by decide)
  revert hmem
  decide

/-- Witness for the C6 theorem: its conclusion instantiated at a concrete
valid draft. -/
theorem prompt_contains_day_title_techs_witness :
    strContains (prompt c6Input) c6Input.project_title :=
  (prompt_contains_day_title_techs c6Input (by decide) (by decide)).2.1

/-- C10: a draft whose technologies are all whitespace-only (with the
first one non-empty) passes validation, yet the filtered technologies
list is empty and the joined tech string is empty. -/
theorem whitespace_tech_passes_validation (i : GenerateInputs)
    (htitle : i.project_title ≠ "") (h1 : i.tech1 ≠ "")
    (hws : ∀ t ∈ [i.tech1, i.tech2, i.tech3, i.tech4], ∀ c ∈ t.data, pyIsSpace c = true) :
    generate_handler i = .callGemini (prompt i) ∧
    technologies i = [] ∧ tech_string i = "" := by
  have hfilter : technologies i = [] := by
    rw [technologies, List.filter_eq_nil_iff]
    intro t ht
    simp only [stripNonempty, List.any_eq_true, Bool.not_eq_eq_eq_not, Bool.not_true,
      not_exists, not_and]
    intro c hc
    simp [hws t ht c hc]
  refine ⟨?_, hfilter, ?_⟩
  · rw [generate_handler, if_neg]
    rintro (h | h)
    · exact htitle h
    · exact h1 h
  · rw [tech_string, hfilter]
    rfl

/-- Helper: on a truthy identity (ok status and truthy `sub`), the publish
handler runs the media step and the post-creation call. -/
theorem publish_handler_ok (g : String) (ep : Option String) (file : Option UploadedFile)
    (env : PublishEnv) (hid : httpOk env.identity_resp = true)
    (hsub : pyTruthy env.identity_sub = true) :
    publish_handler ⟨some g, ep⟩ file env =
      (let author := env.identity_sub.getD ""
       let ms := media_upload_step file env.upload_env author
       let out := create_linkedin_post_with_media author (ep.getD "") ms.media_urn
         (linkedin_media_type file ms.media_urn) env.post_resp env.post_resp_json
         env.post_raw_err
       { errors := [] ++ ms.errors ++
           (if out.2.1 then [] else ["❌ Failed to publish post: " ++ out.2.2])
         warnings := ms.warnings
         infos := ["👤 Posting as: " ++ (some ((env.identity_name).getD "N/A")).getD "None"] ++
           ms.infos
         successes := ms.successes ++
           (if out.2.1 then ["🎉 Post published successfully to LinkedIn!"] else [])
         identity_called := true
         upload_attempted := ms.attempted
         post_call := some out.1
         result := some out.2 }) := by
  simp only [publish_handler, get_user_urn, hid, if_true, hsub]

/-- A draft whose only technology input is a single space. -/
def c10Input : GenerateInputs :=
  { day_number := 1, project_title := "App", tech1 := " ", tech2 := ""
    tech3 := "", tech4 := "", custom_milestone := "", custom_skills := ""
    custom_next_phase := "" }

/-- Witness for the C10 theorem at a concrete all-whitespace draft. -/
theorem whitespace_tech_passes_validation_witness :
    generate_handler c10Input = .callGemini (prompt c10Input) ∧
    technologies c10Input = [] ∧ tech_string c10Input = "" :=
  whitespace_tech_passes_validation c10Input (by decide) (by decide) (by decide)

/-- Helper: the body sent by `create_linkedin_post_with_media` does not
depend on the response. -/
theorem create_post_first (author text : String) (mu mt : Option String)
    (resp : HttpResponse) (rj re : String) :
    (create_linkedin_post_with_media author text mu mt resp rj re).1 =
      create_post_data author text mu mt := by
  simp only [create_linkedin_post_with_media]
  split <;> rfl

/-- C1: with an attached media file whose upload helper returns no asset
id, the publish handler still makes the post-creation call, the body has
no media block, the share category is the literal NONE, and a result is
produced (the operation is not aborted). -/
theorem media_upload_failure_posts_without_media (g : String) (ep : Option String)
    (f : UploadedFile) (env : PublishEnv)
    (hid : httpOk env.identity_resp = true)
    (hsub : pyTruthy env.identity_sub = true)
    (hup : (upload_media_to_linkedin env.upload_env (env.identity_sub.getD "") f.type).2.2 =
      none) :
    ∃ body, (publish_handler ⟨some g, ep⟩ (some f) env).post_call = some body ∧
      body.media = none ∧ body.shareMediaCategory = some "NONE" ∧
      (publish_handler ⟨some g, ep⟩ (some f) env).result.isSome = true := by
  rw [publish_handler_ok g ep (some f) env hid hsub]
  simp only [media_upload_step, hup, pyTruthy, Bool.false_eq_true, if_false,
    linkedin_media_type, create_post_first, create_post_data, Option.isSome_some]
  exact ⟨_, rfl, rfl, rfl, trivial⟩

/-- A concrete upload environment in which both media calls succeed. -/
def uploadOk : UploadEnv :=
  { register_resp := ⟨201⟩, register_raw_err := ""
    register_upload_url := "https://upload.example"
    register_asset := "urn:li:digitalmediaAsset:9"
    upload_resp := ⟨201⟩, upload_raw_err := "" }

/-- A concrete upload environment whose register call returns a server
error. -/
def uploadBadRegister : UploadEnv :=
  { uploadOk with
    register_resp := ⟨500⟩
    register_raw_err := "500 Server Error: Internal Server Error" }

/-- A concrete publish environment in which every call succeeds. -/
def envAllOk : PublishEnv :=
  { identity_resp := ⟨200⟩, identity_raw_err := ""
    identity_name := some "Alice", identity_sub := some "u1"
    upload_env := uploadOk, post_resp := ⟨201⟩
    post_resp_json := "ugc-post-123", post_raw_err := "" }

/-- A concrete PNG upload. -/
def pngFile : UploadedFile := { name := "a.png", type := "image/png", content := [137] }

/-- Witness for the C1 theorem: a publish with a failed media
registration at concrete inputs. -/
theorem media_upload_failure_posts_without_media_witness :
    ∃ body,
      (publish_handler ⟨some "draft", some "edited"⟩ (some pngFile)
        { envAllOk with upload_env := uploadBadRegister }).post_call = some body ∧
      body.media = none ∧ body.shareMediaCategory = some "NONE" ∧
      (publish_handler ⟨some "draft", some "edited"⟩ (some pngFile)
        { envAllOk with upload_env := uploadBadRegister }).result.isSome = true :=
  media_upload_failure_posts_without_media "draft" (some "edited") pngFile
    { envAllOk with upload_env := uploadBadRegister } (by decide) (by decide) (by decide)

/-- Helper: no string starts with both `image` and `video`. -/
theorem not_image_and_video (s : String) :
    ¬ (pyStartsWith s "image" = true ∧ pyStartsWith s "video" = true) := by
  rintro ⟨h1, h2⟩
  rw [pyStartsWith, List.isPrefixOf_iff_prefix] at h1 h2
  obtain ⟨t1, ht1⟩ := h1
  obtain ⟨t2, ht2⟩ := h2
  have e1 : List.head? ("image".data ++ t1) = some 'i' := rfl
  have e2 : List.head? ("video".data ++ t2) = some 'v' := rfl
  rw [ht1] at e1
  rw [ht2] at e2
  rw [e1] at e2
  exact absurd e2 (by decide)

/-- C2: with an attached media file whose upload helper returns a truthy
asset id, the post body carries a media block referencing that asset, and
for an image MIME prefix the category is IMAGE with title Project Image,
for a video MIME prefix the category is VIDEO with title Project Video. -/
theorem media_upload_success_sets_category_and_title (g : String) (ep : Option String)
    (f : UploadedFile) (env : PublishEnv) (a : String)
    (hid : httpOk env.identity_resp = true)
    (hsub : pyTruthy env.identity_sub = true)
    (hup : (upload_media_to_linkedin env.upload_env (env.identity_sub.getD "") f.type).2.2 =
      some a)
    (ha : a ≠ "") :
    ∃ body mb, (publish_handler ⟨some g, ep⟩ (some f) env).post_call = some body ∧
      body.media = some mb ∧ mb.media = a ∧
      (pyStartsWith f.type "image" = true →
        body.shareMediaCategory = some "IMAGE" ∧ mb.title_text = "Project Image") ∧
      (pyStartsWith f.type "video" = true →
        body.shareMediaCategory = some "VIDEO" ∧ mb.title_text = "Project Video") := by
  have hta : pyTruthy (some a) = true := by simp [pyTruthy, ha]
  rw [publish_handler_ok g ep (some f) env hid hsub]
  simp only [media_upload_step, hup, hta, if_true, linkedin_media_type,
    create_post_first, create_post_data, Option.getD_some]
  by_cases himg : pyStartsWith f.type "image" = true
  · simp only [himg, if_true]
    exact ⟨_, _, rfl, rfl, rfl, fun _ => ⟨rfl, by simp⟩,
      fun hvid => absurd ⟨himg, hvid⟩ (not_image_and_video f.type)⟩
  · rw [Bool.not_eq_true] at himg
    simp only [himg, Bool.false_eq_true, if_false]
    by_cases hvid : pyStartsWith f.type "video" = true
    · simp only [hvid, if_true]
      exact ⟨_, _, rfl, rfl, rfl,
        fun h => absurd h (by simp [himg]), fun _ => ⟨rfl, by simp⟩⟩
    · rw [Bool.not_eq_true] at hvid
      simp only [hvid, Bool.false_eq_true, if_false]
      exact ⟨_, _, rfl, rfl, rfl,
        fun h => absurd h (by simp [himg]), fun h => absurd h (by simp [hvid])⟩

/-- Witness for the C2 theorem: a publish with a successful image upload
at concrete inputs. -/
theorem media_upload_success_sets_category_and_title_witness :
    ∃ body mb,
      (publish_handler ⟨some "draft", some "edited"⟩ (some pngFile) envAllOk).post_call =
        some body ∧
      body.media = some mb ∧ mb.media = "urn:li:digitalmediaAsset:9" ∧
      (pyStartsWith pngFile.type "image" = true →
        body.shareMediaCategory = some "IMAGE" ∧ mb.title_text = "Project Image") ∧
      (pyStartsWith pngFile.type "video" = true →
        body.shareMediaCategory = some "VIDEO" ∧ mb.title_text = "Project Video") :=
  media_upload_success_sets_category_and_title "draft" (some "edited") pngFile envAllOk
    "urn:li:digitalmediaAsset:9" (by decide) (by decide) (by decide) (by decide)

/-- C9: an uploaded file whose MIME type starts with neither image nor
video is classified as VIDEO by the registration step, yet on a
successful upload the post body's share category is the null value and
the media title is Project Image. -/
theorem non_image_video_file_null_category (g : String) (ep : Option String)
    (f : UploadedFile) (env : PublishEnv) (a : String)
    (himg : pyStartsWith f.type "image" = false)
    (hvid : pyStartsWith f.type "video" = false)
    (hid : httpOk env.identity_resp = true)
    (hsub : pyTruthy env.identity_sub = true)
    (hup : (upload_media_to_linkedin env.upload_env (env.identity_sub.getD "") f.type).2.2 =
      some a)
    (ha : a ≠ "") :
    media_category f.type = "VIDEO" ∧
    ∃ body mb, (publish_handler ⟨some g, ep⟩ (some f) env).post_call = some body ∧
      body.shareMediaCategory = none ∧ body.media = some mb ∧
      mb.title_text = "Project Image" ∧ mb.media = a := by
  have hta : pyTruthy (some a) = true := by simp [pyTruthy, ha]
  constructor
  · simp [media_category, himg]
  · rw [publish_handler_ok g ep (some f) env hid hsub]
    simp only [media_upload_step, hup, hta, if_true, linkedin_media_type, himg, hvid,
      Bool.false_eq_true, if_false, create_post_first, create_post_data, Option.getD_some]
    exact ⟨_, _, rfl, rfl, rfl, by simp, rfl⟩

/-- A concrete MP3 upload: a MIME type that is neither image nor video. -/
def mp3File : UploadedFile := { name := "a.mp3", type := "audio/mpeg", content := [0] }

/-- Witness for the C9 theorem: a publish with a successfully uploaded
audio file at concrete inputs. -/
theorem non_image_video_file_null_category_witness :
    media_category mp3File.type = "VIDEO" ∧
    ∃ body mb,
      (publish_handler ⟨some "draft", some "edited"⟩ (some mp3File) envAllOk).post_call =
        some body ∧
      body.shareMediaCategory = none ∧ body.media = some mb ∧
      mb.title_text = "Project Image" ∧ mb.media = "urn:li:digitalmediaAsset:9" :=
  non_image_video_file_null_category "draft" (some "edited") mp3File envAllOk
    "urn:li:digitalmediaAsset:9" (by decide) (by decide) (by decide) (by decide) (by decide)
    (by decide)

/-- C4 (amended): when the identity call raises (status at least 400) the
publish run stops after `get_user_urn`: the media upload is never
attempted and the post-creation call is never made; the generic
fetch-error message is displayed, and the authentication-specific message
exactly when the status is 401. -/
theorem identity_error_aborts_publish (g : String) (ep : Option String)
    (file : Option UploadedFile) (env : PublishEnv)
    (hfail : httpOk env.identity_resp = false) :
    (publish_handler ⟨some g, ep⟩ file env).identity_called = true ∧
    (publish_handler ⟨some g, ep⟩ file env).upload_attempted = false ∧
    (publish_handler ⟨some g, ep⟩ file env).post_call = none ∧
    (publish_handler ⟨some g, ep⟩ file env).result = none ∧
    ("Error fetching user info: " ++ env.identity_raw_err) ∈
      (publish_handler ⟨some g, ep⟩ file env).errors ∧
    (env.identity_resp.status_code = 401 →
      "❌ LinkedIn token expired or invalid. Please update your token." ∈
        (publish_handler ⟨some g, ep⟩ file env).errors) := by
  simp only [publish_handler, get_user_urn, hfail, Bool.false_eq_true, if_false, pyTruthy]
  refine ⟨trivial, trivial, trivial, trivial, by simp, fun h401 => by simp [h401]⟩

/-- A concrete publish environment whose identity call returns a server
error. -/
def env500 : PublishEnv :=
  { envAllOk with
    identity_resp := ⟨500⟩
    identity_raw_err :=
      "500 Server Error: Internal Server Error for url: https://api.linkedin.com/v2/userinfo" }

/-- A concrete publish environment whose identity call returns a 300
status (non-2xx, but below the raising range). -/
def env300 : PublishEnv := { envAllOk with identity_resp := ⟨300⟩ }

/-- Counterexample to C4 as stated: a 500 identity response aborts the
publish but its result carries no authentication-error message, and a 300
identity response (also non-2xx) does not abort at all — the post-creation
call is still made. -/
theorem identity_failure_not_always_auth_tagged :
    ((publish_handler ⟨some "draft", some "edited"⟩ none env500).post_call = none ∧
      "❌ LinkedIn token expired or invalid. Please update your token." ∉
        (publish_handler ⟨some "draft", some "edited"⟩ none env500).errors) ∧
    (publish_handler ⟨some "draft", some "edited"⟩ none env300).post_call.isSome = true := by
  decide

/-- Witness for the C4 theorem: an aborted publish at a concrete failing
identity response. -/
theorem identity_error_aborts_publish_witness :
    (publish_handler ⟨some "draft", some "edited"⟩ none env500).identity_called = true ∧
    (publish_handler ⟨some "draft", some "edited"⟩ none env500).upload_attempted = false ∧
    (publish_handler ⟨some "draft", some "edited"⟩ none env500).post_call = none ∧
    (publish_handler ⟨some "draft", some "edited"⟩ none env500).result = none ∧
    ("Error fetching user info: " ++ env500.identity_raw_err) ∈
      (publish_handler ⟨some "draft", some "edited"⟩ none env500).errors ∧
    (env500.identity_resp.status_code = 401 →
      "❌ LinkedIn token expired or invalid. Please update your token." ∈
        (publish_handler ⟨some "draft", some "edited"⟩ none env500).errors) :=
  identity_error_aborts_publish "draft" (some "edited") none env500 (by decide)

/-- C3 (amended): a 401 always yields the authentication-specific
message: the identity path displays the token-expired error (in addition
to its generic fetch-error line), and the post-creation path returns
failure with exactly the token-expired message. -/
theorem auth_message_on_401 (name sub : Option String) (raw : String)
    (author text : String) (mu mt : Option String) (rj praw : String)
    (resp : HttpResponse) (h : resp.status_code = 401) :
    "❌ LinkedIn token expired or invalid. Please update your token." ∈
      (get_user_urn resp name sub raw).1 ∧
    (create_linkedin_post_with_media author text mu mt resp rj praw).2 =
      (false, "LinkedIn token expired or invalid") := by
  have hko : httpOk resp = false := by simp [httpOk, h]
  constructor
  · simp [get_user_urn, hko, h]
  · simp [create_linkedin_post_with_media, hko, h]

/-- Counterexample to C3 as stated: on a 401 from the identity endpoint
the generic fetch-error message is displayed as well, so the user-visible
result is not free of generic error messages. -/
theorem identity_401_shows_generic_error :
    ("Error fetching user info: " ++
      "401 Client Error: Unauthorized for url: https://api.linkedin.com/v2/userinfo") ∈
      (get_user_urn ⟨401⟩ (some "Alice") (some "u1")
        "401 Client Error: Unauthorized for url: https://api.linkedin.com/v2/userinfo").1 := by
  decide

/-- Witness for the C3 theorem at a concrete 401 response. -/
theorem auth_message_on_401_witness :
    "❌ LinkedIn token expired or invalid. Please update your token." ∈
      (get_user_urn ⟨401⟩ (some "Alice") (some "u1") "401 Client Error").1 ∧
    (create_linkedin_post_with_media "u1" "hello" none none ⟨401⟩ "rb" "401 Client Error").2 =
      (false, "LinkedIn token expired or invalid") :=
  auth_message_on_401 (some "Alice") (some "u1") "401 Client Error" "u1" "hello" none none
    "rb" "401 Client Error" ⟨401⟩ rfl

/-- C7 (amended): the post-creation call returns every outcome as a
value: success with the decoded body for any non-raising status (all 2xx
included), failure with the token-expired message for 401, the
insufficient-permissions message for 403, and the raw error text for
every other raising status. -/
theorem post_creation_result_by_status (author text : String) (mu mt : Option String)
    (resp : HttpResponse) (rj raw : String) :
    (httpOk resp = true →
      (create_linkedin_post_with_media author text mu mt resp rj raw).2 = (true, rj)) ∧
    (resp.status_code = 401 →
      (create_linkedin_post_with_media author text mu mt resp rj raw).2 =
        (false, "LinkedIn token expired or invalid")) ∧
    (resp.status_code = 403 →
      (create_linkedin_post_with_media author text mu mt resp rj raw).2 =
        (false, "Insufficient permissions. Check your LinkedIn app scopes")) ∧
    (httpOk resp = false → resp.status_code ≠ 401 → resp.status_code ≠ 403 →
      (create_linkedin_post_with_media author text mu mt resp rj raw).2 = (false, raw)) := by
  refine ⟨fun h => ?_, fun h => ?_, fun h => ?_, fun h h1 h3 => ?_⟩
  · simp [create_linkedin_post_with_media, h]
  · have hko : httpOk resp = false := by simp [httpOk, h]
    simp [create_linkedin_post_with_media, hko, h]
  · have hko : httpOk resp = false := by simp [httpOk, h]
    simp [create_linkedin_post_with_media, hko, h]
  · simp [create_linkedin_post_with_media, h, h1, h3]

/-- Counterexample to C7 as stated: a 304 post-creation response is not
2xx, yet `raise_for_status` raises only from 400 up, so the code returns
success with the decoded body rather than any failure result. -/
theorem status_304_reports_success :
    (create_linkedin_post_with_media "u1" "hello" none none ⟨304⟩ "resp-body" "raw").2 =
      (true, "resp-body") := by
  decide

/-- Witness for the C7 theorem at the four concrete statuses 201, 401,
403 and 500. -/
theorem post_creation_result_by_status_witness :
    (create_linkedin_post_with_media "u1" "hello" none none ⟨201⟩ "rb" "raw").2 =
      (true, "rb") ∧
    (create_linkedin_post_with_media "u1" "hello" none none ⟨401⟩ "rb" "raw").2 =
      (false, "LinkedIn token expired or invalid") ∧
    (create_linkedin_post_with_media "u1" "hello" none none ⟨403⟩ "rb" "raw").2 =
      (false, "Insufficient permissions. Check your LinkedIn app scopes") ∧
    (create_linkedin_post_with_media "u1" "hello" none none ⟨500⟩ "rb" "raw").2 =
      (false, "raw") :=
  ⟨(post_creation_result_by_status "u1" "hello" none none ⟨201⟩ "rb" "raw").1 (by decide),
   (post_creation_result_by_status "u1" "hello" none none ⟨401⟩ "rb" "raw").2.1 rfl,
   (post_creation_result_by_status "u1" "hello" none none ⟨403⟩ "rb" "raw").2.2.1 rfl,
   (post_creation_result_by_status "u1" "hello" none none ⟨500⟩ "rb" "raw").2.2.2
     (by decide) (by decide) (by decide)⟩

/-- C8: after the clear action the generated draft is removed from
session state, and a publish attempt on the cleared state is rejected
with the generate-first error before any external call. -/
theorem clear_then_publish_rejected (s : SessionState) (file : Option UploadedFile)
    (env : PublishEnv) :
    (clear_handler s).generated_post = none ∧
    publish_handler (clear_handler s) file env =
      { errors := ["❌ Please generate a post first!"], warnings := [], infos := []
        successes := [], identity_called := false, upload_attempted := false
        post_call := none, result := none } :=
  ⟨rfl, rfl⟩

end LinkedinApp
